import Mathlib

/-!
Shallow embedding of the integration ban-synchronization core of the
Bunker repository, together with theorems settling the claims about it.

The embedded code lives in:
* `bunker/integrations/integration.py` (ban-record store operations and
  the config save/enable/disable lifecycle),
* `bunker/integrations/custom.py` (the websocket-backed integration:
  single and bulk ban/unban, the partial-retry protocol, and the
  report-presence cache used by `scan_players`),
* `bunker/bans.py` (the event-dispatcher hooks, in particular
  `on_player_ban`).

Parts of the repository the claims depend on are not in the source tree
(the websocket channel `bunker/integrations/websocket.py`, the database
session factory `bunker/db/__init__.py`, and the `PlayerBan` ORM model
with its unique constraint); those are modelled from the specification
and carry a doc comment saying so.
-/

namespace Bunker

/-- A local ban record: the spec's BanRecord, keyed by the unique
(integration id, player id) pair and holding the remote ban id. -/
structure PlayerBan where
  integration_id : Nat
  player_id : String
  remote_id : String
deriving Repr, DecidableEq

/-- Modelled from the spec: the persistent BanRecord store
(the `PlayerBan` ORM model and the database session are not under the
source tree; §3 describes it as a set of records with at most one per
(integration, player), reachable through simple get/create/delete
operations that take effect as issued). -/
abbrev BanStore := List PlayerBan

/-- The error taxonomy of `bunker/exceptions.py`, plus the
IntegrationCommandError carried by the websocket layer (modelled from
the spec) and the Python AttributeError a `None` attribute access
raises. The commandError payload mirrors the structured error response:
the error string together with the successful subset, keyed by player id
for bans and by remote ban id for unbans. -/
inductive IntegrationError where
  | notFound
  | alreadyBanned (player_id : String)
  | banError (player_id : String)
  | bulkBanError (player_ids : List String)
  | commandError (error : String) (player_ids : List (String × String)) (ban_ids : List String)
  | validationError
  | attributeError
  | channelError
deriving Repr, DecidableEq

/-- The fields of `schemas.Response` the embedded operations read:
the reported player's id and the community's contact url (used only to
build the ban reason). -/
structure Response where
  player_id : String
  contact_url : String
deriving Repr, DecidableEq

/-- `Integration.get_ban_reason`. -/
def get_ban_reason (contact_url : String) : String :=
  "Banned via shared HLL Bunker report. Appeal at " ++ contact_url

/-- `Integration.get_ban` restricted to one integration id: the first
record of the store for the (integration, player) pair. -/
def get_ban (bans : BanStore) (iid : Nat) (pid : String) : Option PlayerBan :=
  bans.find? (fun b => b.integration_id == iid && b.player_id == pid)

/-- `Integration.set_ban_id`: insert one record; the unique constraint
on the (integration, player) pair turns a duplicate insert into an
IntegrityError, which the method raises as AlreadyBannedError. -/
def set_ban_id (bans : BanStore) (iid : Nat) (pid ban_id : String) :
    Except IntegrationError BanStore :=
  if (get_ban bans iid pid).isSome then
    .error (.alreadyBanned pid)
  else
    .ok (bans ++ [⟨iid, pid, ban_id⟩])

/-- One row of the bulk insert of `Integration.set_multiple_ban_ids`:
`ON CONFLICT DO NOTHING` on the (player, integration) index keeps an
existing record and drops the new row. -/
def insert_ban_do_nothing (bans : BanStore) (iid : Nat) (pid ban_id : String) : BanStore :=
  if (get_ban bans iid pid).isSome then bans else bans ++ [⟨iid, pid, ban_id⟩]

/-- `Integration.set_multiple_ban_ids`: bulk insert of
(player id, ban id) pairs with conflicts silently ignored. -/
def set_multiple_ban_ids (bans : BanStore) (iid : Nat)
    (pairs : List (String × String)) : BanStore :=
  pairs.foldl (fun bs p => insert_ban_do_nothing bs iid p.1 p.2) bans

/-- `db.delete(db_ban)` on the record found for (integration, player):
removes the pair's record from the store. -/
def delete_ban (bans : BanStore) (iid : Nat) (pid : String) : BanStore :=
  bans.filter (fun b => !(b.integration_id == iid && b.player_id == pid))

/-- `Integration.discard_multiple_ban_ids`: delete every record of this
integration whose player id is in the given list. -/
def discard_multiple_ban_ids (bans : BanStore) (iid : Nat) (pids : List String) : BanStore :=
  bans.filter (fun b => !(pids.contains b.player_id && b.integration_id == iid))

/-- The spec's uniqueness invariant: at most one BanRecord per
(integration, player) pair. -/
def UniqueBanPairs (bans : BanStore) : Prop :=
  (bans.map (fun b => (b.integration_id, b.player_id))).Nodup

instance : DecidablePred UniqueBanPairs := fun _ =>
  inferInstanceAs (Decidable (List.Nodup _))

/-!
The websocket bulk-RPC layer. `bunker/integrations/websocket.py` is not
under the source tree, so the channel itself is modelled from the spec;
the retry algorithm on top of it (`CustomIntegration.add_multiple_bans`
and `remove_multiple_bans`) is embedded from `custom.py`.
-/

/-- Modelled from the spec: the reply of the remote peer to one
BAN_PLAYERS request over the channel (`bunker/integrations/websocket.py`
is missing from the source tree). Per §4.2/§6 the peer either answers
with a full-success payload echoing every (player id, remote ban id)
pair, or with a structured command error naming the pairs that did
succeed, or the request fails in some other way. -/
inductive BanWsResult where
  | success (player_ids : List (String × String))
  | commandError (error : String) (player_ids : List (String × String))
  | otherError
deriving Repr, DecidableEq

/-- Modelled from the spec: the reply to one UNBAN_PLAYERS request,
keyed by remote ban id instead of player id. -/
inductive UnbanWsResult where
  | success (ban_ids : List String)
  | commandError (error : String) (ban_ids : List String)
  | otherError
deriving Repr, DecidableEq

/-- The remote peer's behavior for ban requests: one reply per request
payload (the channel is deterministic per request in this model). -/
abbrev BanRemote := List (String × String) → BanWsResult

/-- The remote peer's behavior for unban requests. -/
abbrev UnbanRemote := List String → UnbanWsResult

/-- The run of one bulk generator: the values it yielded in order, the
outcome it finished with (ok, or the exception it raised after the last
yield), and how many remote requests it issued. -/
structure BulkRun (α : Type) where
  yielded : List α
  outcome : Except IntegrationError Unit
  requests : Nat
deriving Repr

/-- The dictionary comprehension in `add_multiple_bans` that computes
the ids not acknowledged by the command error:
`{k: v for k, v in player_ids.items() if k not in successful_ids}`. -/
def missing_player_ids (player_ids successful : List (String × String)) :
    List (String × String) :=
  player_ids.filter (fun p => !((successful.map Prod.fst).contains p.1))

/-- `list(set(ban_ids) - set(successful_ids))` in `remove_multiple_bans`;
the model keeps the first-occurrence order of `ban_ids` where Python's
set order is unspecified. -/
def missing_ban_ids (ban_ids successful : List String) : List String :=
  ban_ids.dedup.filter (fun b => !(successful.contains b))

/-- The recursive call of `CustomIntegration.add_multiple_bans` with
`partial_retry=False`: send the batch; on full success yield every pair;
on the specific "Could not ban all players" command error yield the
successful subset and re-raise; any other error propagates with no
yield. This is the sole retry pass, split into its own definition so
that the single bounded recursion of the source is a plain call. -/
def add_multiple_bans_final (remote : BanRemote)
    (player_ids : List (String × String)) : BulkRun (String × String) :=
  match remote player_ids with
  | .success pairs => ⟨pairs, .ok (), 1⟩
  | .otherError => ⟨[], .error .channelError, 1⟩
  | .commandError err succ =>
    if err = "Could not ban all players" then
      ⟨succ, .error (.commandError err succ []), 1⟩
    else
      ⟨[], .error (.commandError err succ []), 1⟩

/-- `CustomIntegration.add_multiple_bans`: send the batch; on full
success yield every pair; on the specific "Could not ban all players"
command error yield the successful subset, then, when the retry flag is
set, recurse exactly once over the unacknowledged ids with the flag
cleared, and otherwise re-raise; any other error propagates with no
yield. -/
def add_multiple_bans (remote : BanRemote) (player_ids : List (String × String))
    (retry : Bool) : BulkRun (String × String) :=
  match remote player_ids with
  | .success pairs => ⟨pairs, .ok (), 1⟩
  | .otherError => ⟨[], .error .channelError, 1⟩
  | .commandError err succ =>
    if err = "Could not ban all players" then
      match retry with
      | true =>
        let rest := add_multiple_bans_final remote (missing_player_ids player_ids succ)
        ⟨succ ++ rest.yielded, rest.outcome, 1 + rest.requests⟩
      | false => ⟨succ, .error (.commandError err succ []), 1⟩
    else
      ⟨[], .error (.commandError err succ []), 1⟩

/-- The retry pass of `CustomIntegration.remove_multiple_bans`, keyed by
remote ban id with the "Could not unban all players" error string. -/
def remove_multiple_bans_final (remote : UnbanRemote)
    (ban_ids : List String) : BulkRun String :=
  match remote ban_ids with
  | .success ids => ⟨ids, .ok (), 1⟩
  | .otherError => ⟨[], .error .channelError, 1⟩
  | .commandError err succ =>
    if err = "Could not unban all players" then
      ⟨succ, .error (.commandError err [] succ), 1⟩
    else
      ⟨[], .error (.commandError err [] succ), 1⟩

/-- `CustomIntegration.remove_multiple_bans`: the same shape as
`add_multiple_bans` keyed by remote ban id. -/
def remove_multiple_bans (remote : UnbanRemote) (ban_ids : List String)
    (retry : Bool) : BulkRun String :=
  match remote ban_ids with
  | .success ids => ⟨ids, .ok (), 1⟩
  | .otherError => ⟨[], .error .channelError, 1⟩
  | .commandError err succ =>
    if err = "Could not unban all players" then
      match retry with
      | true =>
        let rest := remove_multiple_bans_final remote (missing_ban_ids ban_ids succ)
        ⟨succ ++ rest.yielded, rest.outcome, 1 + rest.requests⟩
      | false => ⟨succ, .error (.commandError err [] succ), 1⟩
    else
      ⟨[], .error (.commandError err [] succ), 1⟩

/-!
Single-player operations of `CustomIntegration`. `add_ban`/`remove_ban`
pull exactly one element from the corresponding bulk generator with
`anext`, so the retry request is only issued when the first reply
acknowledged nothing; `ban_player`/`unban_player` wrap them with the
local BanRecord bookkeeping. The integration's state is its share of the
BanRecord store plus a counter of remote requests sent, so that
"performs no remote call" is expressible.
-/

/-- The state an integration's operations act on: the BanRecord store
and the number of remote requests issued so far. -/
structure CState where
  bans : BanStore
  sends : Nat
deriving Repr, DecidableEq

/-- `CustomIntegration.add_ban`: `anext(self.add_multiple_bans({player_id:
reason}))`. The generator is lazy: the first yielded pair is returned as
soon as it is produced, and the retry request is issued only when the
command error acknowledged no id at all. `none` stands for any exception
escaping `anext` (the re-raised error or StopAsyncIteration on an empty
reply); the count is the number of remote requests issued up to that
point. -/
def add_ban (remote : BanRemote) (pid reason : String) :
    Option (String × String) × Nat :=
  match remote [(pid, reason)] with
  | .success pairs => (pairs.head?, 1)
  | .otherError => (none, 1)
  | .commandError err succ =>
    if err = "Could not ban all players" then
      match succ.head? with
      | some p => (some p, 1)
      | none =>
        let rest := add_multiple_bans remote (missing_player_ids [(pid, reason)] succ) false
        (rest.yielded.head?, 1 + rest.requests)
    else (none, 1)

/-- `CustomIntegration.remove_ban`: `anext(self.remove_multiple_bans(
[ban_id]))`, with the same lazy one-element semantics. -/
def remove_ban (remote : UnbanRemote) (ban_id : String) : Option String × Nat :=
  match remote [ban_id] with
  | .success ids => (ids.head?, 1)
  | .otherError => (none, 1)
  | .commandError err succ =>
    if err = "Could not unban all players" then
      match succ.head? with
      | some b => (some b, 1)
      | none =>
        let rest := remove_multiple_bans remote (missing_ban_ids [ban_id] succ) false
        (rest.yielded.head?, 1 + rest.requests)
    else (none, 1)

/-- `CustomIntegration.ban_player`: guard on an existing BanRecord for
(integration, player) raising AlreadyBannedError before any remote
traffic; otherwise call the remote, wrap any failure in an
IntegrationBanError carrying the player id, and on success create the
BanRecord with the player id as its remote id (`set_ban_id(db,
player_id, player_id)` in the source). -/
def ban_player (remote : BanRemote) (iid : Nat) (s : CState) (r : Response) :
    Except IntegrationError Unit × CState :=
  let pid := r.player_id
  match get_ban s.bans iid pid with
  | some _ => (.error (.alreadyBanned pid), s)
  | none =>
    let call := add_ban remote pid (get_ban_reason r.contact_url)
    let s1 : CState := ⟨s.bans, s.sends + call.2⟩
    match call.1 with
    | none => (.error (.banError pid), s1)
    | some _ =>
      match set_ban_id s1.bans iid pid pid with
      | .ok bans2 => (.ok (), ⟨bans2, s1.sends⟩)
      | .error e => (.error e, s1)

/-- `CustomIntegration.unban_player`: NotFoundError when no BanRecord
exists; otherwise delete the local record, then issue the remote unban
with the record's remote id, wrapping a failure in IntegrationBanError.
The storage is modelled from the spec as taking effect as issued, so the
deletion stands whether or not the remote call succeeds (§4.1, §7). -/
def unban_player (remote : UnbanRemote) (iid : Nat) (s : CState) (r : Response) :
    Except IntegrationError Unit × CState :=
  let pid := r.player_id
  match get_ban s.bans iid pid with
  | none => (.error .notFound, s)
  | some b =>
    let bans1 := delete_ban s.bans iid pid
    let call := remove_ban remote b.remote_id
    let s1 : CState := ⟨bans1, s.sends + call.2⟩
    match call.1 with
    | none => (.error (.banError pid), s1)
    | some _ => (.ok (), s1)

/-- Python dict insertion: an existing key keeps its position and gets
the new value, a new key is appended. -/
def dict_insert : List (String × String) → String → String → List (String × String)
  | [], k, v => [(k, v)]
  | (k0, v0) :: rest, k, v =>
    if k0 = k then (k0, v) :: rest else (k0, v0) :: dict_insert rest k v

/-- The dict comprehension of `bulk_ban_players`: player id → ban
reason, built over the responses in order. -/
def dict_of_responses (responses : List Response) : List (String × String) :=
  responses.foldl (fun d r => dict_insert d r.player_id (get_ban_reason r.contact_url)) []

/-- The result of a bulk ban/unban call: the outcome it finished with
and the BanRecord store it left behind. -/
structure BulkCallResult where
  outcome : Except IntegrationError Unit
  bans : BanStore
deriving Repr

/-- `CustomIntegration.bulk_ban_players`: drain `add_multiple_bans` into
`ban_ids`, and in the finally phase persist every collected pair with
`set_multiple_ban_ids` (when any) whether or not the generator raised;
the generator's exception, if any, then propagates unchanged. -/
def bulk_ban_players (remote : BanRemote) (iid : Nat) (bans : BanStore)
    (responses : List Response) : BulkCallResult :=
  let run := add_multiple_bans remote (dict_of_responses responses) true
  let bans2 := if run.yielded.isEmpty then bans else set_multiple_ban_ids bans iid run.yielded
  ⟨run.outcome, bans2⟩

/-- The first loop of `bulk_unban_players`: build the remote ban id →
player id dict. The source reads `ban.remote_id` off the result of
`get_ban` without a None check, so a response whose player has no
BanRecord raises AttributeError. -/
def collect_ban_ids (bans : BanStore) (iid : Nat) :
    List Response → List (String × String) → Except IntegrationError (List (String × String))
  | [], acc => .ok acc
  | r :: rest, acc =>
    match get_ban bans iid r.player_id with
    | none => .error .attributeError
    | some b => collect_ban_ids bans iid rest (dict_insert acc b.remote_id r.player_id)

/-- `CustomIntegration.bulk_unban_players`: map each response's player
to its remote ban id (AttributeError when a player has no BanRecord),
drain `remove_multiple_bans` over the dict's keys translating each
yielded ban id back to its player id, and in the finally phase discard
the successfully unbanned players' records whether or not the generator
raised. A yielded ban id the dict does not hold would raise a KeyError
in the source; the model skips it. -/
def bulk_unban_players (remote : UnbanRemote) (iid : Nat) (bans : BanStore)
    (responses : List Response) : BulkCallResult :=
  match collect_ban_ids bans iid responses [] with
  | .error e => ⟨.error e, bans⟩
  | .ok dict =>
    let run := remove_multiple_bans remote (dict.map Prod.fst) true
    let successful := run.yielded.filterMap
      (fun bid => (dict.find? (fun kv => kv.1 == bid)).map Prod.snd)
    let bans2 := if successful.isEmpty then bans else discard_multiple_ban_ids bans iid successful
    ⟨run.outcome, bans2⟩

/-!
The event-dispatcher hook `on_player_ban` of `bunker/bans.py`: which
integrations of the deciding community get a `ban_player` call.
-/

/-- The fields of a community's integration config row the dispatcher
reads: the id it is keyed by and its enabled flag. -/
structure IntegrationCfg where
  id : Nat
  enabled : Bool
deriving Repr, DecidableEq

/-- A community as `on_player_ban` sees it: its list of integration
config rows (the `Community.integrations` relation, which is every
integration of the community regardless of the enabled flag). -/
structure Community where
  integrations : List IntegrationCfg
deriving Repr, DecidableEq

/-- `get_player_bans_for_community`: the store's records for this player
joined with the community's integrations. -/
def get_player_bans_for_community (bans : BanStore) (community : Community)
    (pid : String) : List PlayerBan :=
  bans.filter (fun b =>
    b.player_id == pid && community.integrations.any (fun c => c.id == b.integration_id))

/-- `on_player_ban` (`bunker/bans.py`): load the player's bans for the
community; return early when the community has no more integrations
than bans; otherwise issue `ban_player` against every integration whose
id is not among those already holding a ban. The value is the list of
integration ids `ban_player` is invoked on, in order. -/
def on_player_ban (community : Community) (bans : BanStore) (pid : String) : List Nat :=
  let player_bans := get_player_bans_for_community bans community pid
  if community.integrations.length ≤ player_bans.length then []
  else
    let banned_by := player_bans.map (fun b => b.integration_id)
    (community.integrations.filter (fun c => !(banned_by.contains c.id))).map (fun c => c.id)

/-- The dispatcher target set in the words of the spec (§4.4): the
complement of the already-applied integrations within the community's
enabled integrations. Stated for comparison with `on_player_ban`. -/
def spec_on_player_ban (community : Community) (bans : BanStore) (pid : String) : List Nat :=
  let player_bans := get_player_bans_for_community bans community pid
  let banned_by := player_bans.map (fun b => b.integration_id)
  ((community.integrations.filter (fun c => c.enabled)).filter
    (fun c => !(banned_by.contains c.id))).map (fun c => c.id)

/-!
The report-presence cache of `IntegrationRequestHandler.scan_players`
(`custom.py`). The TTLCache is modelled as the mapping it holds at the
moment of the lookup (an expired entry is simply absent); the state also
counts storage queries so that "no storage query on a hit" is
expressible.
-/

/-- The scan state: the TTL cache's current contents and the number of
storage queries issued. -/
structure ScanState where
  cache : List (String × Bool)
  queries : Nat
deriving Repr, DecidableEq

/-- `TTLCache.get`: the cached boolean for the player, when present. -/
def cache_get (cache : List (String × Bool)) (pid : String) : Option Bool :=
  (cache.find? (fun kv => kv.1 == pid)).map Prod.snd

/-- `self.__is_player_reported[player_id] = is_reported`: store the
boolean, replacing an existing entry for the key. -/
def cache_put : List (String × Bool) → String → Bool → List (String × Bool)
  | [], k, v => [(k, v)]
  | (k0, v0) :: rest, k, v =>
    if k0 = k then (k0, v) :: rest else (k0, v0) :: cache_put rest k v

/-- The loop body of `scan_players` for one player id: a cache hit is
used as is; a miss queries storage (`is_player_reported`) once and
writes the result back into the cache, whatever the boolean. Returns
the new state and whether the player counts as reported. -/
def scan_player (storage : String → Bool) (s : ScanState) (pid : String) :
    ScanState × Bool :=
  match cache_get s.cache pid with
  | some b => (s, b)
  | none =>
    let b := storage pid
    (⟨cache_put s.cache pid b, s.queries + 1⟩, b)

/-- The lookup loop of `scan_players` over the payload's player ids:
threads the scan state and collects the reported player ids in order. -/
def scan_players (storage : String → Bool) (s : ScanState) :
    List String → ScanState × List String
  | [] => (s, [])
  | pid :: rest =>
    let step := scan_player storage s pid
    let next := scan_players storage step.1 rest
    (next.1, if step.2 then pid :: next.2 else next.2)

/-!
The config save/enable/disable lifecycle of `Integration`
(`bunker/integrations/integration.py`), over the persisted integration
table. The create/update helpers are embedded from
`bunker/crud/integrations.py`.
-/

/-- The in-memory integration config (`schemas.IntegrationConfigParams`
restricted to the fields the lifecycle reads): `id` is `none` before
the first save. -/
structure IntegrationConfig where
  id : Option Nat
  community_id : Nat
  enabled : Bool
  api_key : String
  api_url : String
deriving Repr, DecidableEq

/-- A persisted integration row (`models.Integration`): the same fields
with a concrete id. -/
structure IntegrationRecord where
  id : Nat
  community_id : Nat
  enabled : Bool
  api_key : String
  api_url : String
deriving Repr, DecidableEq

/-- The persisted state the lifecycle touches: the integration table
with its autoincrement counter, and the BanRecord store (carried along
to state what `disable` does not touch). -/
structure Db where
  integrations : List IntegrationRecord
  next_id : Nat
  bans : BanStore
deriving Repr, DecidableEq

/-- `model_validate(db_config)`: the persisted row read back as an
in-memory config. -/
def config_of_record (row : IntegrationRecord) : IntegrationConfig :=
  ⟨some row.id, row.community_id, row.enabled, row.api_key, row.api_url⟩

/-- `create_integration_config`: insert a new row under a fresh id and
return it. -/
def create_integration_config (db : Db) (config : IntegrationConfig) :
    IntegrationRecord × Db :=
  let row : IntegrationRecord :=
    ⟨db.next_id, config.community_id, config.enabled, config.api_key, config.api_url⟩
  (row, ⟨db.integrations ++ [row], db.next_id + 1, db.bans⟩)

/-- `update_integration_config`: update the row with the config's id to
the config's values and return it; NotFoundError when no row matches. -/
def update_integration_config (db : Db) (config : IntegrationConfig) :
    Except IntegrationError (IntegrationRecord × Db) :=
  match config.id with
  | none => .error .notFound
  | some i =>
    if db.integrations.any (fun r => r.id == i) then
      let row : IntegrationRecord :=
        ⟨i, config.community_id, config.enabled, config.api_key, config.api_url⟩
      .ok (row, ⟨db.integrations.map (fun r => if r.id == i then row else r), db.next_id, db.bans⟩)
    else .error .notFound

/-- `Integration.save_config`: create when the config has no id yet,
update otherwise; the returned persisted row replaces the in-memory
config (`self.config = type(self.config).model_validate(db_config)`).
The value is (returned row, new in-memory config, new persisted
state). -/
def save_config (db : Db) (config : IntegrationConfig) :
    Except IntegrationError (IntegrationRecord × IntegrationConfig × Db) :=
  match config.id with
  | none =>
    let created := create_integration_config db config
    .ok (created.1, config_of_record created.1, created.2)
  | some _ =>
    match update_integration_config db config with
    | .ok (row, db2) => .ok (row, config_of_record row, db2)
    | .error e => .error e

/-- `Integration.enable`: set the enabled flag and save. -/
def enable (db : Db) (config : IntegrationConfig) :
    Except IntegrationError (IntegrationRecord × IntegrationConfig × Db) :=
  save_config db { config with enabled := true }

/-- `Integration.disable`: clear the enabled flag and save. The
`remove_bans` argument is accepted and never read. -/
def disable (db : Db) (config : IntegrationConfig) (remove_bans : Bool) :
    Except IntegrationError (IntegrationRecord × IntegrationConfig × Db) :=
  save_config db { config with enabled := false }

/-! Helper lemmas about the BanRecord store. -/

/-- The key a store record is unique by. -/
def banKey (b : PlayerBan) : Nat × String := (b.integration_id, b.player_id)

theorem get_ban_eq_none_iff (bans : BanStore) (iid : Nat) (pid : String) :
    get_ban bans iid pid = none ↔ ∀ b ∈ bans, ¬(b.integration_id = iid ∧ b.player_id = pid) := by
  simp [get_ban, List.find?_eq_none]

theorem get_ban_append_of_none (bans : BanStore) (iid : Nat) (pid rid : String)
    (h : get_ban bans iid pid = none) :
    get_ban (bans ++ [⟨iid, pid, rid⟩]) iid pid = some ⟨iid, pid, rid⟩ := by
  unfold get_ban at h ⊢
  rw [List.find?_append, h]
  simp

theorem get_ban_append_of_some (bans l : BanStore) (iid : Nat) (pid : String)
    (b : PlayerBan) (h : get_ban bans iid pid = some b) :
    get_ban (bans ++ l) iid pid = some b := by
  simp [get_ban, List.find?_append] at h ⊢
  simp [h]

theorem get_ban_delete (bans : BanStore) (iid : Nat) (pid : String) :
    get_ban (delete_ban bans iid pid) iid pid = none := by
  unfold get_ban delete_ban
  rw [List.find?_filter, List.find?_eq_none]
  intro b _
  simp only [Bool.not_eq_true]
  cases h : b.integration_id == iid && b.player_id == pid <;> simp [h]

theorem get_ban_insert_isSome (bans : BanStore) (iid : Nat) (pid rid : String) :
    (get_ban (insert_ban_do_nothing bans iid pid rid) iid pid).isSome := by
  unfold insert_ban_do_nothing
  by_cases h : (get_ban bans iid pid).isSome
  · simp [h]
  · simp [h]
    rw [Option.not_isSome_iff_eq_none] at h
    simp [get_ban_append_of_none bans iid pid rid h]

theorem get_ban_insert_of_some (bans : BanStore) (iid2 : Nat) (pid2 rid2 : String)
    (iid : Nat) (pid : String) (b : PlayerBan) (h : get_ban bans iid pid = some b) :
    get_ban (insert_ban_do_nothing bans iid2 pid2 rid2) iid pid = some b := by
  unfold insert_ban_do_nothing
  by_cases h2 : (get_ban bans iid2 pid2).isSome
  · simpa [h2]
  · simp [h2]
    exact get_ban_append_of_some bans _ iid pid b h

theorem get_ban_set_multiple_of_some (pairs : List (String × String)) (bans : BanStore)
    (iid2 iid : Nat) (pid : String) (b : PlayerBan) (h : get_ban bans iid pid = some b) :
    get_ban (set_multiple_ban_ids bans iid2 pairs) iid pid = some b := by
  induction pairs generalizing bans with
  | nil => simpa [set_multiple_ban_ids]
  | cons p rest ih =>
    simp only [set_multiple_ban_ids, List.foldl_cons]
    exact ih _ (get_ban_insert_of_some bans iid2 p.1 p.2 iid pid b h)

theorem get_ban_set_multiple_isSome_of_isSome (pairs : List (String × String))
    (bans : BanStore) (iid2 iid : Nat) (pid : String)
    (h : (get_ban bans iid pid).isSome) :
    (get_ban (set_multiple_ban_ids bans iid2 pairs) iid pid).isSome := by
  rw [Option.isSome_iff_exists] at h
  obtain ⟨b, hb⟩ := h
  simp [get_ban_set_multiple_of_some pairs bans iid2 iid pid b hb]

theorem get_ban_set_multiple_isSome_of_mem (pairs : List (String × String))
    (bans : BanStore) (iid : Nat) (p : String × String) (hmem : p ∈ pairs) :
    (get_ban (set_multiple_ban_ids bans iid pairs) iid p.1).isSome := by
  induction pairs generalizing bans with
  | nil => cases hmem
  | cons q rest ih =>
    simp only [set_multiple_ban_ids, List.foldl_cons]
    rcases List.mem_cons.mp hmem with h | h
    · subst h
      exact get_ban_set_multiple_isSome_of_isSome rest _ iid iid p.1
        (get_ban_insert_isSome bans iid p.1 p.2)
    · exact ih _ h

theorem unique_append_of_none (bans : BanStore) (iid : Nat) (pid rid : String)
    (h : UniqueBanPairs bans) (h2 : get_ban bans iid pid = none) :
    UniqueBanPairs (bans ++ [⟨iid, pid, rid⟩]) := by
  rw [get_ban_eq_none_iff] at h2
  unfold UniqueBanPairs at h ⊢
  rw [List.map_append, List.nodup_append]
  refine ⟨h, by simp, ?_⟩
  intro x hx
  simp only [List.map_cons, List.map_nil, List.mem_singleton]
  intro hx2
  obtain ⟨b, hb, hkey⟩ := List.mem_map.mp hx
  subst hx2
  obtain ⟨hk1, hk2⟩ := Prod.mk.injEq .. ▸ hkey
  exact h2 b hb ⟨hk1, hk2⟩

theorem unique_insert (bans : BanStore) (iid : Nat) (pid rid : String)
    (h : UniqueBanPairs bans) :
    UniqueBanPairs (insert_ban_do_nothing bans iid pid rid) := by
  unfold insert_ban_do_nothing
  by_cases h2 : (get_ban bans iid pid).isSome
  · simpa [h2]
  · simp [h2]
    rw [Option.not_isSome_iff_eq_none] at h2
    exact unique_append_of_none bans iid pid rid h h2

theorem unique_set_multiple (pairs : List (String × String)) (bans : BanStore)
    (iid : Nat) (h : UniqueBanPairs bans) :
    UniqueBanPairs (set_multiple_ban_ids bans iid pairs) := by
  induction pairs generalizing bans with
  | nil => simpa [set_multiple_ban_ids]
  | cons p rest ih =>
    simp only [set_multiple_ban_ids, List.foldl_cons]
    exact ih _ (unique_insert bans iid p.1 p.2 h)

/-! Remote fixtures used by the witness theorems. -/

/-- A remote peer that bans every requested player, assigning the player
id itself as the remote ban id. -/
def wRemoteOk : BanRemote := fun req => .success (req.map (fun p => (p.1, p.1)))

/-- A remote peer whose unban requests always fail with a non-command
error. -/
def wRemoteUnbanFail : UnbanRemote := fun _ => .otherError

/-! The claims. -/

/-- C1: when a BanRecord already exists for (integration, player),
`ban_player` fails with AlreadyBannedError and leaves the state — both
the BanRecord store and the remote-send counter — untouched; hence a
second `ban_player` right after a successful one fails with
AlreadyBannedError with zero additional remote sends and no state
change. -/
theorem claim_C1 (remote : BanRemote) (iid : Nat) (s : CState) (r : Response) :
    ((get_ban s.bans iid r.player_id).isSome →
      ban_player remote iid s r = (.error (.alreadyBanned r.player_id), s))
    ∧ (∀ s1, ban_player remote iid s r = (.ok (), s1) →
      ban_player remote iid s1 r = (.error (.alreadyBanned r.player_id), s1)) := by
  constructor
  · intro h
    rw [Option.isSome_iff_exists] at h
    obtain ⟨b, hb⟩ := h
    unfold ban_player
    simp [hb]
  · intro s1 h
    have hsome : (get_ban s1.bans iid r.player_id).isSome := by
      unfold ban_player at h
      cases hg : get_ban s.bans iid r.player_id with
      | some b => simp [hg] at h
      | none =>
        simp only [hg] at h
        cases hc : (add_ban remote r.player_id (get_ban_reason r.contact_url)).1 with
        | none => simp [hc] at h
        | some p =>
          simp only [hc] at h
          have hset : set_ban_id s.bans iid r.player_id r.player_id =
              .ok (s.bans ++ [⟨iid, r.player_id, r.player_id⟩]) := by
            unfold set_ban_id
            simp [hg]
          simp only [hset] at h
          have h2 := congrArg Prod.snd h
          simp only at h2
          rw [← h2]
          simp [get_ban_append_of_none s.bans iid r.player_id r.player_id hg]
    rw [Option.isSome_iff_exists] at hsome
    obtain ⟨b, hb⟩ := hsome
    unfold ban_player
    simp [hb]

/-- C1 witness: with player p already recorded, `ban_player` fails with
AlreadyBannedError and the state is unchanged; and after a successful
ban of p on an empty store, a second `ban_player` fails the same way
with the state unchanged. -/
theorem claim_C1_witness :
    ban_player wRemoteOk 1 ⟨[⟨1, "p", "x"⟩], 0⟩ ⟨"p", "u"⟩ =
      (.error (.alreadyBanned "p"), ⟨[⟨1, "p", "x"⟩], 0⟩)
    ∧ ban_player wRemoteOk 1 ⟨[⟨1, "p", "p"⟩], 1⟩ ⟨"p", "u"⟩ =
      (.error (.alreadyBanned "p"), ⟨[⟨1, "p", "p"⟩], 1⟩) :=
  ⟨(claim_C1 wRemoteOk 1 ⟨[⟨1, "p", "x"⟩], 0⟩ ⟨"p", "u"⟩).1 (by decide),
   (claim_C1 wRemoteOk 1 ⟨[], 0⟩ ⟨"p", "u"⟩).2 ⟨[⟨1, "p", "p"⟩], 1⟩ (by rfl)⟩

/-- C2: `unban_player` fails with NotFoundError when no BanRecord exists
for (integration, player) and changes nothing; when a record exists, the
resulting store is the one with the record deleted — whatever the remote
call does — so the pair has no record afterwards, and when the remote
call fails the operation fails with IntegrationBanError carrying the
player id while the deletion stands. -/
theorem claim_C2 (remote : UnbanRemote) (iid : Nat) (s : CState) (r : Response) :
    (get_ban s.bans iid r.player_id = none →
      unban_player remote iid s r = (.error .notFound, s))
    ∧ (∀ b, get_ban s.bans iid r.player_id = some b →
      (unban_player remote iid s r).2.bans = delete_ban s.bans iid r.player_id
      ∧ get_ban (unban_player remote iid s r).2.bans iid r.player_id = none
      ∧ ((remove_ban remote b.remote_id).1 = none →
          (unban_player remote iid s r).1 = .error (.banError r.player_id))) := by
  constructor
  · intro h
    unfold unban_player
    simp [h]
  · intro b hb
    have hbans : (unban_player remote iid s r).2.bans = delete_ban s.bans iid r.player_id := by
      unfold unban_player
      simp only [hb]
      cases hc : (remove_ban remote b.remote_id).1 <;> simp [hc]
    refine ⟨hbans, ?_, ?_⟩
    · rw [hbans]
      exact get_ban_delete s.bans iid r.player_id
    · intro hfail
      unfold unban_player
      simp [hb, hfail]

theorem add_multiple_bans_false_eq (remote : BanRemote) (pids : List (String × String)) :
    add_multiple_bans remote pids false = add_multiple_bans_final remote pids := by
  unfold add_multiple_bans add_multiple_bans_final
  cases remote pids with
  | success pairs => rfl
  | otherError => rfl
  | commandError err succ => split <;> rfl

theorem remove_multiple_bans_false_eq (remote : UnbanRemote) (bids : List String) :
    remove_multiple_bans remote bids false = remove_multiple_bans_final remote bids := by
  unfold remove_multiple_bans remove_multiple_bans_final
  cases remote bids with
  | success ids => rfl
  | otherError => rfl
  | commandError err succ => split <;> rfl

theorem add_multiple_bans_final_requests (remote : BanRemote) (pids : List (String × String)) :
    (add_multiple_bans_final remote pids).requests = 1 := by
  unfold add_multiple_bans_final
  split <;> first | rfl | (split <;> rfl)

theorem remove_multiple_bans_final_requests (remote : UnbanRemote) (bids : List String) :
    (remove_multiple_bans_final remote bids).requests = 1 := by
  unfold remove_multiple_bans_final
  split <;> first | rfl | (split <;> rfl)

/-- C2 witness: unbanning an unrecorded player fails with NotFoundError;
with a record present and a failing remote, the record is deleted, the
pair no longer resolves, and the operation fails with
IntegrationBanError. -/
theorem claim_C2_witness :
    unban_player wRemoteUnbanFail 1 ⟨[], 0⟩ ⟨"p", "u"⟩ = (.error .notFound, ⟨[], 0⟩)
    ∧ (unban_player wRemoteUnbanFail 1 ⟨[⟨1, "p", "rid"⟩], 0⟩ ⟨"p", "u"⟩).2.bans =
        delete_ban [⟨1, "p", "rid"⟩] 1 "p"
    ∧ get_ban (unban_player wRemoteUnbanFail 1 ⟨[⟨1, "p", "rid"⟩], 0⟩ ⟨"p", "u"⟩).2.bans 1 "p" = none
    ∧ (unban_player wRemoteUnbanFail 1 ⟨[⟨1, "p", "rid"⟩], 0⟩ ⟨"p", "u"⟩).1 =
        .error (.banError "p") :=
  have h := (claim_C2 wRemoteUnbanFail 1 ⟨[⟨1, "p", "rid"⟩], 0⟩ ⟨"p", "u"⟩).2 ⟨1, "p", "rid"⟩ (by rfl)
  ⟨(claim_C2 wRemoteUnbanFail 1 ⟨[], 0⟩ ⟨"p", "u"⟩).1 (by rfl),
   h.1, h.2.1, h.2.2 (by rfl)⟩

/-- C3: for a bulk ban batch with the retry flag set, a full-success
reply yields every (player id, remote ban id) pair of the reply with a
single request; the specific "Could not ban all players" command error
yields the acknowledged subset followed by exactly one recursion over
the unacknowledged ids with the flag cleared, a pass that issues exactly
one request; in every case at most 2 requests are issued; and the unban
variant behaves the same keyed by remote ban id. -/
theorem claim_C3 (remote : BanRemote) (pids : List (String × String))
    (uremote : UnbanRemote) (bids : List String) :
    (∀ pairs, remote pids = .success pairs →
      add_multiple_bans remote pids true = ⟨pairs, .ok (), 1⟩)
    ∧ (∀ succ, remote pids = .commandError "Could not ban all players" succ →
      add_multiple_bans remote pids true =
        ⟨succ ++ (add_multiple_bans remote (missing_player_ids pids succ) false).yielded,
         (add_multiple_bans remote (missing_player_ids pids succ) false).outcome,
         1 + (add_multiple_bans remote (missing_player_ids pids succ) false).requests⟩
      ∧ (add_multiple_bans remote (missing_player_ids pids succ) false).requests = 1)
    ∧ (add_multiple_bans remote pids true).requests ≤ 2
    ∧ (∀ ids, uremote bids = .success ids →
      remove_multiple_bans uremote bids true = ⟨ids, .ok (), 1⟩)
    ∧ (∀ succ, uremote bids = .commandError "Could not unban all players" succ →
      remove_multiple_bans uremote bids true =
        ⟨succ ++ (remove_multiple_bans uremote (missing_ban_ids bids succ) false).yielded,
         (remove_multiple_bans uremote (missing_ban_ids bids succ) false).outcome,
         1 + (remove_multiple_bans uremote (missing_ban_ids bids succ) false).requests⟩
      ∧ (remove_multiple_bans uremote (missing_ban_ids bids succ) false).requests = 1)
    ∧ (remove_multiple_bans uremote bids true).requests ≤ 2 := by
  refine ⟨?_, ?_, ?_, ?_, ?_, ?_⟩
  · intro pairs h
    unfold add_multiple_bans
    rw [h]
  · intro succ h
    rw [add_multiple_bans_false_eq]
    constructor
    · conv => lhs; unfold add_multiple_bans
      rw [h]
      simp
    · exact add_multiple_bans_final_requests remote _
  · unfold add_multiple_bans
    split
    · simp
    · simp
    · split
      · simp [add_multiple_bans_final_requests]
      · simp
  · intro ids h
    unfold remove_multiple_bans
    rw [h]
  · intro succ h
    rw [remove_multiple_bans_false_eq]
    constructor
    · conv => lhs; unfold remove_multiple_bans
      rw [h]
      simp
    · exact remove_multiple_bans_final_requests uremote _
  · unfold remove_multiple_bans
    split
    · simp
    · simp
    · split
      · simp [remove_multiple_bans_final_requests]
      · simp

/-- A remote peer for ban requests that acknowledges only player A on a
batch of two or more and fully succeeds on smaller batches. -/
def wRemotePartialBan : BanRemote := fun req =>
  if 2 ≤ req.length then .commandError "Could not ban all players" [("A", "rA")]
  else .success (req.map (fun p => (p.1, p.1)))

/-- A remote peer for unban requests that acknowledges only ban id a on
a batch of two or more and fully succeeds on smaller batches. -/
def wRemotePartialUnban : UnbanRemote := fun req =>
  if 2 ≤ req.length then .commandError "Could not unban all players" ["a"]
  else .success req

/-- C3 witness: on the batch {A, B} against a peer that first
acknowledges only A, the run yields A's pair then B's retried pair in 2
requests; a singleton batch fully succeeds in 1 request; the unban
variant behaves symmetrically. -/
theorem claim_C3_witness :
    add_multiple_bans wRemotePartialBan [("A", "x"), ("B", "y")] true =
      ⟨[("A", "rA"), ("B", "B")], .ok (), 2⟩
    ∧ add_multiple_bans wRemoteOk [("A", "x")] true = ⟨[("A", "A")], .ok (), 1⟩
    ∧ (add_multiple_bans wRemotePartialBan
        (missing_player_ids [("A", "x"), ("B", "y")] [("A", "rA")]) false).requests = 1
    ∧ remove_multiple_bans wRemotePartialUnban ["a", "b"] true = ⟨["a", "b"], .ok (), 2⟩
    ∧ remove_multiple_bans wRemotePartialUnban ["a"] true = ⟨["a"], .ok (), 1⟩
    ∧ (remove_multiple_bans wRemotePartialUnban
        (missing_ban_ids ["a", "b"] ["a"]) false).requests = 1 :=
  have hb := (claim_C3 wRemotePartialBan [("A", "x"), ("B", "y")]
    wRemotePartialUnban ["a", "b"]).2.1 [("A", "rA")] (by rfl)
  have hu := (claim_C3 wRemotePartialBan [("A", "x"), ("B", "y")]
    wRemotePartialUnban ["a", "b"]).2.2.2.2.1 ["a"] (by rfl)
  ⟨hb.1.trans (by rfl),
   (claim_C3 wRemoteOk [("A", "x")] wRemotePartialUnban ["a"]).1 [("A", "A")] (by rfl),
   hb.2,
   hu.1.trans (by rfl),
   (claim_C3 wRemoteOk [("A", "x")] wRemotePartialUnban ["a"]).2.2.2.1 ["a"] (by rfl),
   hu.2⟩

/-- A remote peer for ban requests that acknowledges A and C on the full
batch and then nothing on the retry batch, so both passes fail with the
"Could not ban all players" command error. -/
def wRemoteBanFailTwice : BanRemote := fun req =>
  if 2 ≤ req.length then .commandError "Could not ban all players" [("A", "rA"), ("C", "rC")]
  else .commandError "Could not ban all players" []

/-- C4 counterexample: with bans of {A, B, C} where the remote
acknowledges only A and C and the retry for B fails again, the overall
outcome of `bulk_ban_players` is the re-raised IntegrationCommandError
(carrying the retry's empty successful subset), not an
IntegrationBulkBanError listing the failed player id B; A and C are
nonetheless persisted. -/
theorem claim_C4_counterexample :
    (bulk_ban_players wRemoteBanFailTwice 1 []
        [⟨"A", "u"⟩, ⟨"B", "u"⟩, ⟨"C", "u"⟩]).outcome =
      .error (.commandError "Could not ban all players" [] [])
    ∧ (bulk_ban_players wRemoteBanFailTwice 1 []
        [⟨"A", "u"⟩, ⟨"B", "u"⟩, ⟨"C", "u"⟩]).outcome ≠ .error (.bulkBanError ["B"])
    ∧ (get_ban (bulk_ban_players wRemoteBanFailTwice 1 []
        [⟨"A", "u"⟩, ⟨"B", "u"⟩, ⟨"C", "u"⟩]).bans 1 "A").isSome
    ∧ (get_ban (bulk_ban_players wRemoteBanFailTwice 1 []
        [⟨"A", "u"⟩, ⟨"B", "u"⟩, ⟨"C", "u"⟩]).bans 1 "C").isSome := by
  refine ⟨rfl, ?_, rfl, rfl⟩
  intro h
  have h2 : (Except.error (IntegrationError.commandError "Could not ban all players" [] [])
      : Except IntegrationError Unit) = .error (.bulkBanError ["B"]) := by
    rw [← h]
    rfl
  simp at h2

/-- C4 amended: when the retry pass of a bulk ban also fails,
`bulk_ban_players` propagates the bulk protocol's own error — the
IntegrationCommandError carrying the error string and the successful
subset — rather than a BulkBanError listing the failed player ids (in
general its outcome is exactly the outcome of the underlying
`add_multiple_bans` run); and every (player id, ban id) pair confirmed
in either pass has its BanRecord persisted by the finally phase
regardless of the overall outcome. -/
theorem claim_C4 (remote : BanRemote) (iid : Nat) (bans : BanStore)
    (responses : List Response) :
    (bulk_ban_players remote iid bans responses).outcome =
      (add_multiple_bans remote (dict_of_responses responses) true).outcome
    ∧ ∀ pid rid,
      (pid, rid) ∈ (add_multiple_bans remote (dict_of_responses responses) true).yielded →
      (get_ban (bulk_ban_players remote iid bans responses).bans iid pid).isSome := by
  refine ⟨rfl, ?_⟩
  intro pid rid hmem
  unfold bulk_ban_players
  simp only
  split
  · rename_i hempty
    rw [List.isEmpty_iff] at hempty
    rw [hempty] at hmem
    cases hmem
  · exact get_ban_set_multiple_isSome_of_mem _ bans iid (pid, rid) hmem

/-- C4 witness: on the {A, B, C} batch whose retry fails, the persisted
records for A and C exist and the outcome is the propagated command
error. -/
theorem claim_C4_witness :
    (get_ban (bulk_ban_players wRemoteBanFailTwice 2 []
        [⟨"A", "u"⟩, ⟨"B", "u"⟩, ⟨"C", "u"⟩]).bans 2 "A").isSome
    ∧ (bulk_ban_players wRemoteBanFailTwice 2 []
        [⟨"A", "u"⟩, ⟨"B", "u"⟩, ⟨"C", "u"⟩]).outcome =
      (add_multiple_bans wRemoteBanFailTwice
        (dict_of_responses [⟨"A", "u"⟩, ⟨"B", "u"⟩, ⟨"C", "u"⟩]) true).outcome :=
  ⟨(claim_C4 wRemoteBanFailTwice 2 [] [⟨"A", "u"⟩, ⟨"B", "u"⟩, ⟨"C", "u"⟩]).2
      "A" "rA" (by decide),
   (claim_C4 wRemoteBanFailTwice 2 [] [⟨"A", "u"⟩, ⟨"B", "u"⟩, ⟨"C", "u"⟩]).1⟩

/-- C5 counterexample: a community whose single integration is disabled
and holds no ban for the player: `on_player_ban` invokes `ban_player` on
it, while the spec's target set (the complement within the enabled
integrations) is empty — the dispatcher does not consult the enabled
flag. -/
theorem claim_C5_counterexample :
    on_player_ban ⟨[⟨1, false⟩]⟩ [] "p" = [1]
    ∧ spec_on_player_ban ⟨[⟨1, false⟩]⟩ [] "p" = []
    ∧ on_player_ban ⟨[⟨1, false⟩]⟩ [] "p" ≠ spec_on_player_ban ⟨[⟨1, false⟩]⟩ [] "p" := by
  refine ⟨rfl, rfl, ?_⟩
  decide

/-- C5 amended: on a community's ban decision the dispatcher invokes
`ban_player` exactly on the community's integrations — enabled or not —
that do not already hold a BanRecord for the reported player, provided
the store satisfies the uniqueness invariant and the community's
integration ids are distinct (so the early length shortcut coincides
with the complement being empty). -/
theorem claim_C5 (community : Community) (bans : BanStore) (pid : String)
    (h1 : UniqueBanPairs bans)
    (h2 : (community.integrations.map (fun c => c.id)).Nodup) :
    on_player_ban community bans pid =
      (community.integrations.filter (fun c =>
        !(((get_player_bans_for_community bans community pid).map
            (fun b => b.integration_id)).contains c.id))).map (fun c => c.id) := by
  unfold on_player_ban
  by_cases hlen :
      community.integrations.length ≤ (get_player_bans_for_community bans community pid).length
  · simp only [hlen, if_true]
    symm
    rw [List.map_eq_nil_iff, List.filter_eq_nil_iff]
    intro c hc
    simp only [Bool.not_eq_true, Bool.not_eq_false]
    -- every integration of the community already holds a ban for the player
    set pb := get_player_bans_for_community bans community pid with hpbdef
    have hsub : pb.Sublist bans := List.filter_sublist bans
    have hkeys : (pb.map (fun b => (b.integration_id, b.player_id))).Nodup :=
      List.Nodup.sublist (hsub.map (fun b => (b.integration_id, b.player_id))) h1
    have hcond : ∀ b ∈ pb, b.player_id = pid ∧
        (community.integrations.any (fun c2 => c2.id == b.integration_id)) = true := by
      intro b hb
      rw [hpbdef] at hb
      unfold get_player_bans_for_community at hb
      have hf := List.of_mem_filter hb
      rw [Bool.and_eq_true] at hf
      exact ⟨eq_of_beq hf.1, hf.2⟩
    have hids : (pb.map (fun b => b.integration_id)).Nodup := by
      have hmm : pb.map (fun b => b.integration_id) =
          (pb.map (fun b => (b.integration_id, b.player_id))).map Prod.fst := by
        rw [List.map_map]
        rfl
      rw [hmm]
      refine List.Nodup.map_on ?_ hkeys
      intro x hx y hy hxy
      obtain ⟨bx, hbx, hbxe⟩ := List.mem_map.mp hx
      obtain ⟨by2, hby, hbye⟩ := List.mem_map.mp hy
      have hx2 : x.2 = pid := by rw [← hbxe]; exact (hcond bx hbx).1
      have hy2 : y.2 = pid := by rw [← hbye]; exact (hcond by2 hby).1
      calc x = (x.1, x.2) := rfl
        _ = (y.1, y.2) := by rw [hxy, hx2, hy2]
        _ = y := rfl
    have hsubids : ∀ x ∈ pb.map (fun b => b.integration_id),
        x ∈ community.integrations.map (fun c2 => c2.id) := by
      intro x hx
      obtain ⟨b, hb, hbe⟩ := List.mem_map.mp hx
      obtain ⟨c2, hc2, hce⟩ := List.any_eq_true.mp (hcond b hb).2
      exact List.mem_map.mpr ⟨c2, hc2, (eq_of_beq hce).trans hbe⟩
    have hST : (pb.map (fun b => b.integration_id)).toFinset ⊆
        (community.integrations.map (fun c2 => c2.id)).toFinset := by
      intro x hx
      rw [List.mem_toFinset] at hx ⊢
      exact hsubids x hx
    have hcardS : (pb.map (fun b => b.integration_id)).toFinset.card = pb.length := by
      rw [List.toFinset_card_of_nodup hids, List.length_map]
    have hcardT : (community.integrations.map (fun c2 => c2.id)).toFinset.card =
        community.integrations.length := by
      rw [List.toFinset_card_of_nodup h2, List.length_map]
    have hTS := Finset.eq_of_subset_of_card_le hST (by omega)
    have hcid : c.id ∈ pb.map (fun b => b.integration_id) := by
      have hmemT : c.id ∈ (community.integrations.map (fun c2 => c2.id)).toFinset := by
        rw [List.mem_toFinset]
        exact List.mem_map.mpr ⟨c, hc, rfl⟩
      rw [← hTS] at hmemT
      rwa [List.mem_toFinset] at hmemT
    simp
    obtain ⟨b, hb, hbe⟩ := List.mem_map.mp hcid
    exact ⟨b, hb, hbe⟩
  · simp [hlen]

/-- C5 witness: the end-to-end scenario of the spec with the enabled
restriction dropped — two integrations, the first already holding a ban
for the player, the second not: only the second is invoked. -/
theorem claim_C5_witness :
    on_player_ban ⟨[⟨1, true⟩, ⟨2, true⟩]⟩ [⟨1, "p", "r"⟩] "p" = [2] :=
  (claim_C5 ⟨[⟨1, true⟩, ⟨2, true⟩]⟩ [⟨1, "p", "r"⟩] "p"
    (by decide) (by decide)).trans (by rfl)

/-- C6: on a store satisfying the uniqueness invariant, `set_ban_id`
preserves it whenever it succeeds and fails with AlreadyBannedError
when the (integration, player) pair already has a record, and
`set_multiple_ban_ids` preserves the invariant without error, leaving an
existing pair's record in place. -/
theorem claim_C6 (bans : BanStore) (iid : Nat) (pid rid : String)
    (pairs : List (String × String)) (h : UniqueBanPairs bans) :
    (∀ bans2, set_ban_id bans iid pid rid = .ok bans2 → UniqueBanPairs bans2)
    ∧ ((get_ban bans iid pid).isSome →
        set_ban_id bans iid pid rid = .error (.alreadyBanned pid))
    ∧ UniqueBanPairs (set_multiple_ban_ids bans iid pairs)
    ∧ (∀ b, get_ban bans iid pid = some b →
        get_ban (set_multiple_ban_ids bans iid pairs) iid pid = some b) := by
  refine ⟨?_, ?_, unique_set_multiple pairs bans iid h, ?_⟩
  · intro bans2 hok
    unfold set_ban_id at hok
    by_cases hg : (get_ban bans iid pid).isSome
    · simp [hg] at hok
    · simp [hg] at hok
      rw [Option.not_isSome_iff_eq_none] at hg
      rw [← hok]
      exact unique_append_of_none bans iid pid rid h hg
  · intro hg
    unfold set_ban_id
    simp [hg]
  · intro b hb
    exact get_ban_set_multiple_of_some pairs bans iid iid pid b hb

/-- C6 witness: on the singleton store for player p, creating a second
record for p fails with AlreadyBannedError; bulk insertion covering p
and a new player q keeps the invariant and leaves p's record as it was;
and a successful single insert for q keeps the invariant. -/
theorem claim_C6_witness :
    set_ban_id [⟨1, "p", "r"⟩] 1 "p" "z" = .error (.alreadyBanned "p")
    ∧ UniqueBanPairs (set_multiple_ban_ids [⟨1, "p", "r"⟩] 1 [("p", "w"), ("q", "v")])
    ∧ get_ban (set_multiple_ban_ids [⟨1, "p", "r"⟩] 1 [("p", "w"), ("q", "v")]) 1 "p" =
        some ⟨1, "p", "r"⟩
    ∧ UniqueBanPairs [⟨1, "p", "r"⟩, ⟨1, "q", "z"⟩] :=
  have h := claim_C6 [⟨1, "p", "r"⟩] 1 "p" "z" [("p", "w"), ("q", "v")] (by decide)
  ⟨h.2.1 (by rfl), h.2.2.1, h.2.2.2 ⟨1, "p", "r"⟩ (by rfl),
   (claim_C6 [⟨1, "p", "r"⟩] 1 "q" "z" [] (by decide)).1
     [⟨1, "p", "r"⟩, ⟨1, "q", "z"⟩] (by rfl)⟩

/-- A remote peer for unban requests that acknowledges every requested
ban id. -/
def wRemoteUnbanEcho : UnbanRemote := fun req => .success req

/-- C7 (code bug): `bulk_unban_players` on a batch containing a player
with no BanRecord does not skip the player — reading `remote_id` off the
`None` returned by `get_ban` raises AttributeError before any remote
call, leaving the store untouched; by contrast, a batch whose players
are all recorded unbans them and removes their records. -/
theorem claim_C7 :
    bulk_unban_players wRemoteUnbanEcho 1 [] [⟨"p1", "u"⟩] = ⟨.error .attributeError, []⟩
    ∧ bulk_unban_players wRemoteUnbanEcho 1 [⟨1, "q", "rq"⟩] [⟨"q", "u"⟩] = ⟨.ok (), []⟩ :=
  ⟨rfl, rfl⟩

theorem cache_get_put (cache : List (String × Bool)) (pid : String) (b : Bool) :
    cache_get (cache_put cache pid b) pid = some b := by
  induction cache with
  | nil => simp [cache_put, cache_get]
  | cons kv rest ih =>
    obtain ⟨k0, v0⟩ := kv
    unfold cache_put
    by_cases h : k0 = pid
    · simp [cache_get, h]
    · simp only [if_neg h]
      unfold cache_get at ih ⊢
      rw [List.find?_cons_of_neg]
      · exact ih
      · simp [h]

/-- C8: a report-presence cache hit — whatever the cached boolean —
returns the cached value with no storage query and no state change; a
miss issues exactly one storage query, returns its result, and writes
the boolean back into the cache (also when it is false, since the
statement holds for every storage function). -/
theorem claim_C8 (storage : String → Bool) (s : ScanState) (pid : String) :
    (∀ b, cache_get s.cache pid = some b → scan_player storage s pid = (s, b))
    ∧ (cache_get s.cache pid = none →
        scan_player storage s pid =
          (⟨cache_put s.cache pid (storage pid), s.queries + 1⟩, storage pid)
        ∧ cache_get (scan_player storage s pid).1.cache pid = some (storage pid)) := by
  constructor
  · intro b hb
    unfold scan_player
    simp [hb]
  · intro hn
    have he : scan_player storage s pid =
        (⟨cache_put s.cache pid (storage pid), s.queries + 1⟩, storage pid) := by
      unfold scan_player
      simp [hn]
    refine ⟨he, ?_⟩
    rw [he]
    exact cache_get_put s.cache pid (storage pid)

/-- C8 witness: a cached true for player h is answered from the cache
with no query; a lookup of the unknown player m against storage that
reports false issues one query, answers false, and caches the false. -/
theorem claim_C8_witness :
    scan_player (fun _ => false) ⟨[("h", true)], 5⟩ "h" = (⟨[("h", true)], 5⟩, true)
    ∧ scan_player (fun _ => false) ⟨[("h", true)], 5⟩ "m" =
        (⟨cache_put [("h", true)] "m" false, 6⟩, false)
    ∧ cache_get (scan_player (fun _ => false) ⟨[("h", true)], 5⟩ "m").1.cache "m" = some false :=
  have h := (claim_C8 (fun _ => false) ⟨[("h", true)], 5⟩ "m").2 (by rfl)
  ⟨(claim_C8 (fun _ => false) ⟨[("h", true)], 5⟩ "h").1 true (by rfl), h.1, h.2⟩

theorem save_config_shape (db : Db) (config : IntegrationConfig)
    (row : IntegrationRecord) (cfg2 : IntegrationConfig) (db2 : Db)
    (h : save_config db config = .ok (row, cfg2, db2)) :
    cfg2 = config_of_record row ∧ row.enabled = config.enabled ∧ db2.bans = db.bans := by
  unfold save_config at h
  cases hid : config.id with
  | none =>
    rw [hid] at h
    unfold create_integration_config at h
    simp only [Except.ok.injEq, Prod.mk.injEq] at h
    obtain ⟨h1, h2, h3⟩ := h
    subst h1 h2 h3
    exact ⟨rfl, rfl, rfl⟩
  | some i =>
    rw [hid] at h
    simp only at h
    cases hupd : update_integration_config db config with
    | error e => rw [hupd] at h; cases h
    | ok pair =>
      rw [hupd] at h
      obtain ⟨row0, db2x⟩ := pair
      simp only [Except.ok.injEq, Prod.mk.injEq] at h
      obtain ⟨h1, h2, h3⟩ := h
      subst h1 h2 h3
      unfold update_integration_config at hupd
      rw [hid] at hupd
      by_cases hany : db.integrations.any (fun r => r.id == i) = true
      · simp only [hany, if_true, Except.ok.injEq, Prod.mk.injEq] at hupd
        obtain ⟨hu1, hu2⟩ := hupd
        subst hu1 hu2
        exact ⟨rfl, rfl, rfl⟩
      · simp only [hany, if_false] at hupd
        cases hupd

theorem find?_update_map (l : List IntegrationRecord) (i : Nat) (row : IntegrationRecord)
    (hrow : row.id = i) (hany : l.any (fun r => r.id == i) = true) :
    (l.map (fun r => if r.id == i then row else r)).find? (fun x => x.id == row.id) = some row := by
  induction l with
  | nil => simp at hany
  | cons r rest ih =>
    simp only [List.map_cons]
    by_cases h : r.id = i
    · simp only [h, beq_self_eq_true, if_true]
      exact List.find?_cons_of_pos _ (by simp)
    · rw [if_neg (by simp [h])]
      rw [List.find?_cons_of_neg]
      · apply ih
        simp only [List.any_cons, Bool.or_eq_true] at hany
        rcases hany with hh | ht
        · exact absurd (eq_of_beq hh) h
        · exact ht
      · simp [hrow, h]

theorem save_config_find (db : Db) (config : IntegrationConfig)
    (hfresh : ∀ r ∈ db.integrations, r.id < db.next_id)
    (row : IntegrationRecord) (cfg2 : IntegrationConfig) (db2 : Db)
    (h : save_config db config = .ok (row, cfg2, db2)) :
    db2.integrations.find? (fun x => x.id == row.id) = some row := by
  unfold save_config at h
  cases hid : config.id with
  | none =>
    rw [hid] at h
    unfold create_integration_config at h
    simp only [Except.ok.injEq, Prod.mk.injEq] at h
    obtain ⟨h1, h2, h3⟩ := h
    subst h1 h2 h3
    simp only [List.find?_append]
    have hnone : db.integrations.find? (fun x => x.id == db.next_id) = none := by
      rw [List.find?_eq_none]
      intro r hr
      have := hfresh r hr
      simp only [beq_iff_eq]
      omega
    rw [hnone]
    simp
  | some i =>
    rw [hid] at h
    simp only at h
    cases hupd : update_integration_config db config with
    | error e => rw [hupd] at h; cases h
    | ok pair =>
      rw [hupd] at h
      obtain ⟨row0, db2x⟩ := pair
      simp only [Except.ok.injEq, Prod.mk.injEq] at h
      obtain ⟨h1, h2, h3⟩ := h
      subst h1 h2 h3
      unfold update_integration_config at hupd
      rw [hid] at hupd
      by_cases hany : db.integrations.any (fun r => r.id == i) = true
      · simp only [hany, if_true, Except.ok.injEq, Prod.mk.injEq] at hupd
        obtain ⟨hu1, hu2⟩ := hupd
        subst hu1 hu2
        exact find?_update_map db.integrations i _ rfl hany
      · simp only [hany, if_false] at hupd
        cases hupd

/-- C9: after every mutation through save — `save_config` itself,
`enable`, and `disable` for either value of its argument — the new
in-memory config is exactly the persisted record read back, the
persisted table resolves the record's id to that record, and
enable/disable leave the flag persisted as true/false respectively
(assuming the table's ids are below the autoincrement counter). -/
theorem claim_C9 (db : Db) (config : IntegrationConfig)
    (hfresh : ∀ r ∈ db.integrations, r.id < db.next_id) :
    (∀ row cfg2 db2, save_config db config = .ok (row, cfg2, db2) →
      cfg2 = config_of_record row
      ∧ db2.integrations.find? (fun x => x.id == row.id) = some row)
    ∧ (∀ row cfg2 db2, enable db config = .ok (row, cfg2, db2) →
      cfg2 = config_of_record row ∧ row.enabled = true ∧ cfg2.enabled = true
      ∧ db2.integrations.find? (fun x => x.id == row.id) = some row)
    ∧ (∀ rb row cfg2 db2, disable db config rb = .ok (row, cfg2, db2) →
      cfg2 = config_of_record row ∧ row.enabled = false ∧ cfg2.enabled = false
      ∧ db2.integrations.find? (fun x => x.id == row.id) = some row) := by
  refine ⟨?_, ?_, ?_⟩
  · intro row cfg2 db2 h
    exact ⟨(save_config_shape db config row cfg2 db2 h).1,
      save_config_find db config hfresh row cfg2 db2 h⟩
  · intro row cfg2 db2 h
    have hs := save_config_shape db { config with enabled := true } row cfg2 db2 h
    refine ⟨hs.1, hs.2.1, ?_, save_config_find db _ hfresh row cfg2 db2 h⟩
    rw [hs.1]
    exact hs.2.1
  · intro rb row cfg2 db2 h
    have hs := save_config_shape db { config with enabled := false } row cfg2 db2 h
    refine ⟨hs.1, hs.2.1, ?_, save_config_find db _ hfresh row cfg2 db2 h⟩
    rw [hs.1]
    exact hs.2.1

/-- C9 witness: on a one-row table, saving, enabling and disabling the
matching config each return the persisted row, swap it into memory, and
persist the respective enabled flag. -/
theorem claim_C9_witness :
    (⟨some 5, 7, false, "k", "u"⟩ : IntegrationConfig) =
      config_of_record ⟨5, 7, false, "k", "u"⟩
    ∧ (⟨5, 7, true, "k", "u"⟩ : IntegrationRecord).enabled = true
    ∧ (config_of_record ⟨5, 7, true, "k", "u"⟩).enabled = true
    ∧ (⟨5, 7, false, "k", "u"⟩ : IntegrationRecord).enabled = false
    ∧ (config_of_record ⟨5, 7, false, "k", "u"⟩).enabled = false
    ∧ ([⟨5, 7, true, "k", "u"⟩] : List IntegrationRecord).find?
        (fun x => x.id == (5 : Nat)) = some ⟨5, 7, true, "k", "u"⟩ :=
  have hdb : ∀ r ∈ ([⟨5, 7, false, "k", "u"⟩] : List IntegrationRecord), r.id < 6 := by decide
  have hsave := (claim_C9 ⟨[⟨5, 7, false, "k", "u"⟩], 6, []⟩ ⟨some 5, 7, false, "k", "u"⟩ hdb).1
    ⟨5, 7, false, "k", "u"⟩ ⟨some 5, 7, false, "k", "u"⟩
    ⟨[⟨5, 7, false, "k", "u"⟩], 6, []⟩ (by rfl)
  have hen := (claim_C9 ⟨[⟨5, 7, false, "k", "u"⟩], 6, []⟩ ⟨some 5, 7, false, "k", "u"⟩ hdb).2.1
    ⟨5, 7, true, "k", "u"⟩ ⟨some 5, 7, true, "k", "u"⟩
    ⟨[⟨5, 7, true, "k", "u"⟩], 6, []⟩ (by rfl)
  have hdis := (claim_C9 ⟨[⟨5, 7, false, "k", "u"⟩], 6, []⟩ ⟨some 5, 7, false, "k", "u"⟩ hdb).2.2
    true ⟨5, 7, false, "k", "u"⟩ ⟨some 5, 7, false, "k", "u"⟩
    ⟨[⟨5, 7, false, "k", "u"⟩], 6, []⟩ (by rfl)
  ⟨hsave.1, hen.2.1, hen.2.2.1, hdis.2.1, hdis.2.2.1, hen.2.2.2⟩

/-- C10: `disable` is insensitive to its `remove_bans` argument — for
either value it performs the identical state change — and when it
succeeds it leaves the BanRecord store untouched while persisting the
enabled flag as false. -/
theorem claim_C10 (db : Db) (config : IntegrationConfig) (remove_bans : Bool) :
    disable db config remove_bans = disable db config false
    ∧ (∀ row cfg2 db2, disable db config remove_bans = .ok (row, cfg2, db2) →
        db2.bans = db.bans ∧ cfg2.enabled = false ∧ row.enabled = false) := by
  refine ⟨rfl, ?_⟩
  intro row cfg2 db2 h
  have hs := save_config_shape db { config with enabled := false } row cfg2 db2 h
  refine ⟨hs.2.2, ?_, hs.2.1⟩
  rw [hs.1]
  exact hs.2.1

/-- C10 witness: disabling with `remove_bans=true` equals disabling with
`remove_bans=false`, and on the sample database the ban store — holding
one record — is untouched while the flag is persisted false. -/
theorem claim_C10_witness :
    disable ⟨[⟨5, 7, true, "k", "u"⟩], 6, [⟨5, "p", "r"⟩]⟩ ⟨some 5, 7, true, "k", "u"⟩ true =
      disable ⟨[⟨5, 7, true, "k", "u"⟩], 6, [⟨5, "p", "r"⟩]⟩ ⟨some 5, 7, true, "k", "u"⟩ false
    ∧ ([⟨5, "p", "r"⟩] : BanStore) = [⟨5, "p", "r"⟩]
    ∧ (⟨some 5, 7, false, "k", "u"⟩ : IntegrationConfig).enabled = false
    ∧ (⟨5, 7, false, "k", "u"⟩ : IntegrationRecord).enabled = false :=
  have h := claim_C10 ⟨[⟨5, 7, true, "k", "u"⟩], 6, [⟨5, "p", "r"⟩]⟩
    ⟨some 5, 7, true, "k", "u"⟩ true
  have h2 := h.2 ⟨5, 7, false, "k", "u"⟩ ⟨some 5, 7, false, "k", "u"⟩
    ⟨[⟨5, 7, false, "k", "u"⟩], 6, [⟨5, "p", "r"⟩]⟩ (by rfl)
  ⟨h.1, h2.1, h2.2.1, h2.2.2⟩

end Bunker
